import Mathlib

/-!
Verification development for the YouTube→Telegram notification bot
(`src/bot.py`).  The source file bundles two revisions of the same bot
class; where the two revisions agree the embedding is given once, and
where they differ (the `/add` flow and the missing-entry branch of
`check_new_videos`) both are embedded, suffixed `A` (first revision,
lines 56–568) and `B` (second revision, lines 568–1116).

HTTP traffic is modelled by oracles: a function from the requested URL to
a `FetchOutcome` (for the RSS endpoints parsed by feedparser) or a
`PageOutcome` (for raw HTML pages).  A pure oracle makes "the feed is
unchanged between two calls" literal: both calls receive the same value.
-/

/-- Python `str.strip()` whitespace class (ASCII part): space, tab, LF, CR,
vertical tab, form feed. -/
def isPyWhitespace (c : Char) : Bool :=
  c == ' ' || c == '\t' || c == '\n' || c == '\r' || c == '\x0b' || c == '\x0c'

/-- Python `str.strip()`: drop leading and trailing whitespace. -/
def pyStrip (s : String) : String :=
  String.mk (((s.toList.dropWhile isPyWhitespace).reverse.dropWhile isPyWhitespace).reverse)

/-- One character of the class `[a-zA-Z0-9_-]` used by every channel-id
regex in bot.py. -/
def isIdChar (c : Char) : Bool :=
  c.isAlpha || c.isDigit || c == '_' || c == '-'

/-- Python `re.match(r'^UC[a-zA-Z0-9_-]\x7b22\x7d$', s)` succeeding as a full
match (bot.py line 62).  `re.match` anchors at the start; Python `$` also
matches just before one trailing newline, which is modelled faithfully
even though `strip()` makes that case unreachable here. -/
def matchChannelIdFull (s : String) : Bool :=
  match s.toList with
  | 'U' :: 'C' :: rest =>
      (rest.take 22).length == 22 && (rest.take 22).all isIdChar
        && (rest.drop 22 == [] || rest.drop 22 == ['\n'])
  | _ => false

/-- Scan a character list left to right, returning the first position where
`f` succeeds — the search strategy of Python `re.search` for the
fixed-length patterns used in bot.py. -/
def scanFor (f : List Char → Option String) : List Char → Option String
  | [] => none
  | cs@(_ :: tl) =>
    match f cs with
    | some r => some r
    | none => scanFor f tl

/-- Try to match, at the head of `cs`, the literal `pre`, then the group
`([UC][a-zA-Z0-9_-]\x7b22\x7d)`, then the literal `post`; return the captured
23-character group. -/
def ucCapAt (pre : List Char) (post : List Char) (cs : List Char) : Option String :=
  if cs.take pre.length == pre then
    match cs.drop pre.length with
    | [] => none
    | c :: rest =>
      if (c == 'U' || c == 'C') && (rest.take 22).length == 22
          && (rest.take 22).all isIdChar
          && (rest.drop 22).take post.length == post then
        some (String.mk (c :: rest.take 22))
      else none
  else none

/-- `re.search(r'youtube\.com/channel/([UC][a-zA-Z0-9_-]\x7b22\x7d)', s)`
(bot.py line 573). -/
def searchChannelUrlId (s : String) : Option String :=
  scanFor (ucCapAt "youtube.com/channel/".toList []) s.toList

/-- `extract_channel_id_simple` (bot.py lines 56–62 and 568–581): strip the
input; if it already is a full `UC` + 22 id characters match, return it
unchanged (no network call in any branch of this function); else try to
extract a canonical id from a `/channel/` URL; else `None`. -/
def extract_channel_id_simple (input_text : String) : Option String :=
  let t := pyStrip input_text
  if matchChannelIdFull t then some t
  else searchChannelUrlId t

/-- A parsed feed entry as feedparser exposes it to bot.py: the optional
`yt_videoid` / `yt_channelid` attributes, the opaque `id`, and the fields
copied into a normalized video.  `author` is `none` when the attribute is
absent (`hasattr` fails). -/
structure FeedEntry where
  yt_videoid : Option String
  yt_channelid : Option String
  entry_id : String
  title : String
  link : String
  published : String
  author : Option String
deriving DecidableEq

/-- Result of parsing an HTTP response body as a feed. -/
inductive ParseOutcome where
  | failure
  | entries (es : List FeedEntry)
deriving DecidableEq

/-- Outcome of one `requests.get` on an RSS URL: a raised transport
exception, or a response with a status code and a parse result. -/
inductive FetchOutcome where
  | transportError
  | response (status : Nat) (parsed : ParseOutcome)
deriving DecidableEq

/-- Outcome of one `requests.get` on an HTML page URL. -/
inductive PageOutcome where
  | transportError
  | response (status : Nat) (content : String)
deriving DecidableEq

/-- The RSS URL built by bot.py for a channel id (lines 67, 90, 590). -/
def rssUrl (channel_id : String) : String :=
  "https://www.youtube.com/feeds/videos.xml?channel_id=" ++ channel_id

/-- The RSS URL keyed by legacy username (bot.py line 589). -/
def rssUserUrl (handle : String) : String :=
  "https://www.youtube.com/feeds/videos.xml?user=" ++ handle

/-- A normalized video item (the dict built in `get_channel_videos`). -/
structure Video where
  video_id : String
  title : String
  link : String
  published : String
  channel_name : String
deriving DecidableEq

/-- Normalization of one feed entry (bot.py lines 100–106): `video_id` is
`entry.yt_videoid` when the attribute exists, else the trailing
`':'`-separated segment of `entry.id`. -/
def videoOfEntry (e : FeedEntry) : Video :=
  { video_id :=
      match e.yt_videoid with
      | some v => v
      | none => (e.entry_id.splitOn ":").getLastD ""
  , title := e.title
  , link := e.link
  , published := e.published
  , channel_name := e.author.getD "Canal do YouTube" }

/-- Body of `get_channel_videos` (bot.py lines 87–112) applied to the fetch
outcome: any transport exception yields `[]`; a non-200 status yields `[]`
before parsing; a parse exception is caught and yields `[]`; otherwise the
first 5 entries are normalized. -/
def videosFromFetch : FetchOutcome → List Video
  | .transportError => []
  | .response status parsed =>
    if status == 200 then
      match parsed with
      | .failure => []
      | .entries es => (es.take 5).map videoOfEntry
    else []

/-- `get_channel_videos` (bot.py lines 87–112): build the RSS URL for the
channel id, fetch it through the oracle, and normalize. -/
def get_channel_videos (http : String → FetchOutcome) (channel_id : String) : List Video :=
  videosFromFetch (http (rssUrl channel_id))

/-- C4: for every input the feed poller returns at most 5 normalized items;
a transport error, a non-success status or a parse failure each return the
empty list (never an exception, which the total embedding reflects); and
the normalized `video_id` falls back to the trailing segment of the
feed-native id when `yt_videoid` is absent. -/
theorem C4_poller_bounded_safe (http : String → FetchOutcome) (channel_id : String) :
    (get_channel_videos http channel_id).length ≤ 5
    ∧ videosFromFetch .transportError = []
    ∧ (∀ (status : Nat) (parsed : ParseOutcome), status ≠ 200 →
        videosFromFetch (.response status parsed) = [])
    ∧ (∀ status : Nat, videosFromFetch (.response status .failure) = [])
    ∧ (∀ es : List FeedEntry,
        videosFromFetch (.response 200 (.entries es)) = (es.take 5).map videoOfEntry)
    ∧ (∀ e : FeedEntry, (videoOfEntry e).video_id
        = (e.yt_videoid.getD ((e.entry_id.splitOn ":").getLastD ""))) := by
  refine ⟨?_, rfl, ?_, ?_, ?_, ?_⟩
  · unfold get_channel_videos videosFromFetch
    cases http (rssUrl channel_id) with
    | transportError => simp
    | response status parsed =>
      by_cases h : status == 200
      · simp only [h, if_pos]
        cases parsed with
        | failure => simp
        | entries es =>
          simp only [List.length_map, List.length_take]
          exact Nat.min_le_left _ _
      · simp [h]
  · intro status parsed h
    have hb : (status == 200) = false := by
      simpa using h
    simp [videosFromFetch, hb]
  · intro status
    by_cases h : status == 200 <;> simp [videosFromFetch, h]
  · intro es
    simp [videosFromFetch]
  · intro e
    cases h : e.yt_videoid <;> simp [videoOfEntry, h, Option.getD]

/-- A sample feed entry used in concrete evaluations. -/
def exEntry (i : String) : FeedEntry :=
  { yt_videoid := some ("vid" ++ i), yt_channelid := none, entry_id := "yt:video:x" ++ i
  , title := "title" ++ i, link := "link" ++ i, published := "pub" ++ i
  , author := some "ChanName" }

/-- Witness for C4: the non-success-status hypothesis discharged at the
concrete status 500. -/
theorem C4_poller_bounded_safe_witness :
    videosFromFetch (.response 500 (.entries [exEntry "1"])) = [] :=
  (C4_poller_bounded_safe (fun _ => .transportError) "UCx").2.2.1
    500 (.entries [exEntry "1"]) (by decide)

/-- The per-channel reconciliation core of `check_new_videos` (bot.py lines
493–511, identically 1049–1063): the new items are the fresh fetch filtered
by absence from the previous seen ids, and the stored ids are the fresh
fetch's ids in full (replacement, not union). -/
def reconcile (previous_seen_ids : List String) (freshly_fetched_items : List Video) :
    List Video × List String :=
  (freshly_fetched_items.filter (fun v => ! previous_seen_ids.contains v.video_id),
   freshly_fetched_items.map (fun v => v.video_id))

/-- If every fetched item id is already in `seen`, the filter keeps
nothing. -/
theorem filter_new_eq_nil (seen : List String) (L : List Video)
    (h : ∀ v ∈ L, v.video_id ∈ seen) :
    L.filter (fun v => ! seen.contains v.video_id) = [] := by
  rw [List.filter_eq_nil_iff]
  intro v hv
  simp [h v hv]

/-- A sample video used in concrete evaluations. -/
def mkVideo (i : String) : Video :=
  { video_id := i, title := "t" ++ i, link := "l" ++ i, published := "p" ++ i
  , channel_name := "c" }

/-- C1: the reconciliation step notifies exactly the subsequence of the
fresh fetch whose ids are absent from the previous seen-set, preserving
feed order, and stores exactly the fresh fetch's ids (full replacement);
with seen = \x7bi2,i3\x7d and fetch = [i1,i2,i3,i4] the new items are [i1,i4] and
the stored ids are [i1,i2,i3,i4]. -/
theorem C1_reconcile_filter_and_replace (S : List String) (L : List Video) :
    (reconcile S L).1.Sublist L
    ∧ (∀ v : Video, v ∈ (reconcile S L).1 ↔ v ∈ L ∧ S.contains v.video_id = false)
    ∧ (reconcile S L).2 = L.map (fun v => v.video_id)
    ∧ reconcile ["i2", "i3"] [mkVideo "i1", mkVideo "i2", mkVideo "i3", mkVideo "i4"]
        = ([mkVideo "i1", mkVideo "i4"], ["i1", "i2", "i3", "i4"]) := by
  refine ⟨List.filter_sublist L, ?_, rfl, by decide⟩
  intro v
  simp [reconcile, List.mem_filter]

/-- C3: reconciliation is idempotent on an unchanged feed — feeding the
seen-set produced by one reconciliation back into a second reconciliation
of the same fetched list yields zero new items, for every starting
seen-set and every fetched list. -/
theorem C3_reconcile_idempotent (S : List String) (L : List Video) :
    (reconcile (reconcile S L).2 L).1 = [] := by
  apply filter_new_eq_nil
  intro v hv
  exact List.mem_map_of_mem (fun v => v.video_id) hv

/-- C7: any input whose stripped form fully matches the canonical-id shape
(`UC` + 22 characters of `[a-zA-Z0-9_-]`) is returned by the resolver as
that stripped string, unchanged.  The embedding of
`extract_channel_id_simple` is a pure function because the source performs
no network request in any branch (bot.py lines 56–62, 568–581). -/
theorem C7_canonical_id_unchanged (s : String)
    (h : matchChannelIdFull (pyStrip s) = true) :
    extract_channel_id_simple s = some (pyStrip s) := by
  simp [extract_channel_id_simple, h]

/-- Witness for C7 at a concrete input with surrounding whitespace. -/
theorem C7_canonical_id_unchanged_witness :
    matchChannelIdFull (pyStrip "  UCabcdefghijklmnopqrstuv \n") = true
    ∧ extract_channel_id_simple "  UCabcdefghijklmnopqrstuv \n"
        = some (pyStrip "  UCabcdefghijklmnopqrstuv \n") :=
  ⟨by decide, C7_canonical_id_unchanged "  UCabcdefghijklmnopqrstuv \n" (by decide)⟩

/-- First entry of the feed carrying a `yt_channelid` attribute (the inner
loop of bot.py lines 602–605). -/
def firstYtChannelId : List FeedEntry → Option String
  | [] => none
  | e :: es =>
    match e.yt_channelid with
    | some c => some c
    | none => firstYtChannelId es

/-- `re.search(r'channel/([UC][a-zA-Z0-9_-]\x7b22\x7d)', s)` (bot.py lines 608
and 644). -/
def searchChannelSlash (s : String) : Option String :=
  scanFor (ucCapAt "channel/".toList []) s.toList

/-- One RSS attempt of `handle_to_channel_id` (bot.py lines 593–615):
succeed only on a 200 response that parses with entries; prefer any
entry's `yt_channelid`, else fall back to a `channel/UC…` capture from the
first entry's link when the link is non-empty.  Any exception in the
attempt is caught and treated as failure of that attempt. -/
def rssAttemptResolve : FetchOutcome → Option String
  | .transportError => none
  | .response status parsed =>
    if status == 200 then
      match parsed with
      | .failure => none
      | .entries [] => none
      | .entries (e0 :: es) =>
        match firstYtChannelId (e0 :: es) with
        | some cid => some cid
        | none => if e0.link ≠ "" then searchChannelSlash e0.link else none
    else none

/-- Scraping one profile-page URL (bot.py lines 628–657): on a 200
response, try the four embedded-JSON patterns in order; otherwise fail. -/
def scrapeResolve : PageOutcome → Option String
  | .transportError => none
  | .response status content =>
    if status == 200 then
      match scanFor (ucCapAt "\"channelId\":\"".toList ['\"']) content.toList with
      | some c => some c
      | none =>
        match scanFor (ucCapAt "\"browseId\":\"".toList ['\"']) content.toList with
        | some c => some c
        | none =>
          match searchChannelSlash content with
          | some c => some c
          | none => scanFor (ucCapAt "\"externalId\":\"".toList ['\"']) content.toList
    else none

/-- The three profile-page URL shapes tried by the scraper (bot.py lines
622–626). -/
def scrapeUrlC (handle : String) : String := "https://www.youtube.com/c/" ++ handle

/-- The `@handle` profile URL shape. -/
def scrapeUrlAt (handle : String) : String := "https://www.youtube.com/@" ++ handle

/-- The legacy `/user/` profile URL shape. -/
def scrapeUrlUser (handle : String) : String := "https://www.youtube.com/user/" ++ handle

/-- First successful result of a list of attempts, in order. -/
def firstSomeP {α : Type} : List (Option α) → Option α
  | [] => none
  | o :: rest =>
    match o with
    | some a => some a
    | none => firstSomeP rest

/-- `handle_to_channel_id` (bot.py lines 583–664): try the two RSS lookups
(`user=`, then `channel_id=`), then scraping the three profile URL shapes;
if every method fails, return the handle itself. -/
def handle_to_channel_id (http : String → FetchOutcome) (page : String → PageOutcome)
    (handle : String) : String :=
  match firstSomeP [rssAttemptResolve (http (rssUserUrl handle)),
                    rssAttemptResolve (http (rssUrl handle))] with
  | some cid => cid
  | none =>
    match firstSomeP [scrapeResolve (page (scrapeUrlC handle)),
                      scrapeResolve (page (scrapeUrlAt handle)),
                      scrapeResolve (page (scrapeUrlUser handle))] with
    | some cid => cid
    | none => handle

/-- C8: when both syndication-endpoint lookups and all three profile-page
scrapes fail to produce a canonical identifier, the resolver returns the
original input token verbatim — a soft failure, not an exception and not
an empty result. -/
theorem C8_exhaustion_returns_input (http : String → FetchOutcome)
    (page : String → PageOutcome) (handle : String)
    (h1 : rssAttemptResolve (http (rssUserUrl handle)) = none)
    (h2 : rssAttemptResolve (http (rssUrl handle)) = none)
    (h3 : scrapeResolve (page (scrapeUrlC handle)) = none)
    (h4 : scrapeResolve (page (scrapeUrlAt handle)) = none)
    (h5 : scrapeResolve (page (scrapeUrlUser handle)) = none) :
    handle_to_channel_id http page handle = handle := by
  simp [handle_to_channel_id, firstSomeP, h1, h2, h3, h4, h5]

/-- Witness for C8: every attempt fails by transport error and the handle
comes back verbatim. -/
theorem C8_exhaustion_returns_input_witness :
    handle_to_channel_id (fun _ => .transportError) (fun _ => .transportError)
      "somehandle" = "somehandle" :=
  C8_exhaustion_returns_input (fun _ => .transportError) (fun _ => .transportError)
    "somehandle" rfl rfl rfl rfl rfl

/-- One channel registration record (the dicts stored in channels.json;
bot.py lines 340–345, 910–915). -/
structure Channel where
  name : String
  channel_id : String
  enabled : Bool
  added_date : String
deriving DecidableEq

/-- Per-channel poll state (one value of the videos_data.json mapping). -/
structure ChannelData where
  last_video_ids : List String
  channel_name : String
deriving DecidableEq

/-- The videos_data.json document: a mapping from channel id to poll
state, embedded as an association list with unique keys (Python dict). -/
def SavedData : Type := List (String × ChannelData)

instance : DecidableEq SavedData := by
  unfold SavedData
  infer_instance

/-- Dict read: `saved_data[channel_id]`, or `none` when absent
(`channel_id not in saved_data`). -/
def lookupData : SavedData → String → Option ChannelData
  | [], _ => none
  | (k, v) :: rest, cid => if k = cid then some v else lookupData rest cid

/-- Dict write: `saved_data[channel_id] = value` (replace in place if the
key exists, append otherwise). -/
def setData : SavedData → String → ChannelData → SavedData
  | [], cid, v => [(cid, v)]
  | (k, w) :: rest, cid, v =>
    if k = cid then (cid, v) :: rest else (k, w) :: setData rest cid v

/-- Reading back the key just written. -/
theorem lookupData_setData_self (d : SavedData) (cid : String) (v : ChannelData) :
    lookupData (setData d cid v) cid = some v := by
  induction d with
  | nil => simp [setData, lookupData]
  | cons hd tl ih =>
    obtain ⟨k, w⟩ := hd
    by_cases h : k = cid <;> simp [setData, lookupData, h, ih]

/-- Writing one key leaves every other key unchanged. -/
theorem lookupData_setData_ne (d : SavedData) (cid cid' : String) (v : ChannelData)
    (h : cid' ≠ cid) : lookupData (setData d cid v) cid' = lookupData d cid' := by
  have h' : cid ≠ cid' := Ne.symm h
  induction d with
  | nil => simp [setData, lookupData, h']
  | cons hd tl ih =>
    obtain ⟨k, w⟩ := hd
    by_cases hk : k = cid
    · subst hk
      simp [setData, lookupData, h']
    · by_cases hk' : k = cid'
      · subst hk'
        simp [setData, lookupData, hk]
      · simp [setData, lookupData, hk, hk', ih]

/-- Observable actions of a reconciliation pass, in program order: one
Telegram notification per new video (`send_telegram_message` of a
formatted video message, recorded with the channel id being processed),
and one write of the whole state document (`save_data`). -/
inductive Event where
  | notify (channel_id : String) (message : String)
  | saveData (d : SavedData)
deriving DecidableEq

/-- Recognizer for the `saveData` event. -/
def isSaveEvent : Event → Bool
  | .saveData _ => true
  | .notify _ _ => false

/-- Recognizer for the `notify` event. -/
def isNotifyEvent : Event → Bool
  | .saveData _ => false
  | .notify _ _ => true

/-- `format_video_message` (bot.py lines 447–455, 1006–1014). -/
def format_video_message (video : Video) (channel_name : String) : String :=
  "🎥 <b>Novo vídeo no canal " ++ channel_name ++ "!</b>\n\n📹 <b>" ++ video.title
    ++ "</b>\n\n🔗 <a href=\"" ++ video.link ++ "\">Assistir agora</a>\n\n📅 "
    ++ video.published

/-- One iteration of the channel loop of revision A's `check_new_videos`
(bot.py lines 469–517): skip disabled channels; skip a channel whose fetch
produced no items; a channel with no stored entry is seeded with the
current ids and skipped without notifying (lines 484–491); otherwise
notify exactly the videos absent from the stored ids and replace the
entry with the current ids and name. -/
def checkChannelA (http : String → FetchOutcome) (d : SavedData) (c : Channel) :
    SavedData × List Event :=
  if c.enabled = false then (d, [])
  else
    let videos := get_channel_videos http c.channel_id
    if videos = [] then (d, [])
    else
      match lookupData d c.channel_id with
      | none =>
        (setData d c.channel_id ⟨videos.map (fun v => v.video_id), c.name⟩, [])
      | some entry =>
        (setData d c.channel_id ⟨videos.map (fun v => v.video_id), c.name⟩,
         (videos.filter (fun v => ! entry.last_video_ids.contains v.video_id)).map
           (fun v => Event.notify c.channel_id (format_video_message v c.name)))

/-- The full channel loop of revision A, threading the in-memory document
and concatenating events in program order. -/
def checkLoopA (http : String → FetchOutcome) : SavedData → List Channel →
    SavedData × List Event
  | d, [] => (d, [])
  | d, c :: cs =>
    let r := checkChannelA http d c
    let rest := checkLoopA http r.1 cs
    (rest.1, r.2 ++ rest.2)

/-- Revision A's `check_new_videos` (bot.py lines 457–528): an empty
registry returns early without writing; otherwise the loop runs over all
channels and `save_data` writes the whole document once at the end. -/
def check_new_videosA (http : String → FetchOutcome) (channels : List Channel)
    (d : SavedData) : SavedData × List Event :=
  if channels = [] then (d, [])
  else
    let r := checkLoopA http d channels
    (r.1, r.2 ++ [Event.saveData r.1])

/-- One iteration of the channel loop of revision B's `check_new_videos`
(bot.py lines 1028–1064): identical to revision A except that a channel
with no stored entry is given an empty `last_video_ids` list (lines
1043–1047) and then processed — so all its current videos are notified. -/
def checkChannelB (http : String → FetchOutcome) (d : SavedData) (c : Channel) :
    SavedData × List Event :=
  if c.enabled = false then (d, [])
  else
    let videos := get_channel_videos http c.channel_id
    if videos = [] then (d, [])
    else
      let entry :=
        match lookupData d c.channel_id with
        | none => (⟨[], c.name⟩ : ChannelData)
        | some e => e
      (setData d c.channel_id ⟨videos.map (fun v => v.video_id), c.name⟩,
       (videos.filter (fun v => ! entry.last_video_ids.contains v.video_id)).map
         (fun v => Event.notify c.channel_id (format_video_message v c.name)))

/-- The full channel loop of revision B. -/
def checkLoopB (http : String → FetchOutcome) : SavedData → List Channel →
    SavedData × List Event
  | d, [] => (d, [])
  | d, c :: cs =>
    let r := checkChannelB http d c
    let rest := checkLoopB http r.1 cs
    (rest.1, r.2 ++ rest.2)

/-- Revision B's `check_new_videos` (bot.py lines 1016–1075). -/
def check_new_videosB (http : String → FetchOutcome) (channels : List Channel)
    (d : SavedData) : SavedData × List Event :=
  if channels = [] then (d, [])
  else
    let r := checkLoopB http d channels
    (r.1, r.2 ++ [Event.saveData r.1])

/-- No iteration of revision A's channel loop emits a `saveData` event:
persistence never happens per channel. -/
theorem checkLoopA_no_save (http : String → FetchOutcome) :
    ∀ (cs : List Channel) (d : SavedData),
      (checkLoopA http d cs).2.filter isSaveEvent = [] := by
  intro cs
  induction cs with
  | nil => intro d; simp [checkLoopA]
  | cons c cs ih =>
    intro d
    have hc : (checkChannelA http d c).2.filter isSaveEvent = [] := by
      by_cases hen : c.enabled = false
      · simp [checkChannelA, hen]
      · by_cases hv : get_channel_videos http c.channel_id = []
        · simp [checkChannelA, hen, hv]
        · cases hl : lookupData d c.channel_id with
          | none => simp [checkChannelA, hen, hv, hl]
          | some entry =>
            have hev : (checkChannelA http d c).2
                = ((get_channel_videos http c.channel_id).filter
                    (fun v => ! entry.last_video_ids.contains v.video_id)).map
                    (fun v => Event.notify c.channel_id (format_video_message v c.name)) := by
              simp [checkChannelA, hen, hv, hl]
            rw [hev, List.filter_eq_nil_iff]
            intro e he
            obtain ⟨v, _, rfl⟩ := List.mem_map.mp he
            simp [isSaveEvent]
    simp [checkLoopA, List.filter_append, hc, ih]

/-- C5: in one reconciliation pass over a non-empty registry, the state
document is written exactly once, that write is the last event of the
pass (so it follows every notification attempt), and no per-channel
intermediate write occurs. -/
theorem C5_single_save_at_end (http : String → FetchOutcome)
    (channels : List Channel) (d : SavedData) (h : channels ≠ []) :
    (check_new_videosA http channels d).2.filter isSaveEvent
        = [Event.saveData (check_new_videosA http channels d).1]
    ∧ (check_new_videosA http channels d).2.getLast?
        = some (Event.saveData (check_new_videosA http channels d).1) := by
  unfold check_new_videosA
  rw [if_neg h]
  constructor
  · simp [List.filter_append, checkLoopA_no_save, isSaveEvent]
  · simp

/-- A sample registration used in concrete evaluations. -/
def exChannel : Channel :=
  { name := "ChanName", channel_id := "UCabcdefghijklmnopqrstuv", enabled := true
  , added_date := "2024-01-01" }

/-- Witness for C5 with a one-channel registry whose fetch errors out. -/
theorem C5_single_save_at_end_witness :
    ([exChannel] ≠ ([] : List Channel))
    ∧ ((check_new_videosA (fun _ => .transportError) [exChannel] []).2.filter isSaveEvent
          = [Event.saveData (check_new_videosA (fun _ => .transportError) [exChannel] []).1]
        ∧ (check_new_videosA (fun _ => .transportError) [exChannel] []).2.getLast?
          = some (Event.saveData (check_new_videosA (fun _ => .transportError) [exChannel] []).1)) :=
  ⟨by decide, C5_single_save_at_end (fun _ => .transportError) [exChannel] [] (by decide)⟩

/-- Frame lemma for revision A's channel loop: if the fetch for channel id
`cid` yields no items, the loop neither changes the stored entry for
`cid` nor emits a notification carrying `cid`. -/
theorem checkLoopA_frame_empty_fetch (http : String → FetchOutcome) (cid : String)
    (hfetch : get_channel_videos http cid = []) :
    ∀ (cs : List Channel) (d : SavedData),
      lookupData (checkLoopA http d cs).1 cid = lookupData d cid
      ∧ ∀ m : String, Event.notify cid m ∉ (checkLoopA http d cs).2 := by
  intro cs
  induction cs with
  | nil => intro d; simp [checkLoopA]
  | cons c cs ih =>
    intro d
    have hstep : lookupData (checkChannelA http d c).1 cid = lookupData d cid
        ∧ ∀ m : String, Event.notify cid m ∉ (checkChannelA http d c).2 := by
      by_cases hen : c.enabled = false
      · simp [checkChannelA, hen]
      · by_cases hcid : c.channel_id = cid
        · subst hcid
          simp [checkChannelA, hen, hfetch]
        · have hset : ∀ v : ChannelData,
              lookupData (setData d c.channel_id v) cid = lookupData d cid :=
            fun v => lookupData_setData_ne d c.channel_id cid v (Ne.symm hcid)
          by_cases hv : get_channel_videos http c.channel_id = []
          · simp [checkChannelA, hen, hv]
          · cases hl : lookupData d c.channel_id with
            | none => simp [checkChannelA, hen, hv, hl, hset]
            | some entry =>
              refine ⟨?_, ?_⟩
              · simp [checkChannelA, hen, hv, hl, hset]
              · intro m hm
                have hev : (checkChannelA http d c).2
                    = ((get_channel_videos http c.channel_id).filter
                        (fun v => ! entry.last_video_ids.contains v.video_id)).map
                        (fun v => Event.notify c.channel_id (format_video_message v c.name)) := by
                  simp [checkChannelA, hen, hv, hl]
                rw [hev] at hm
                obtain ⟨v, _, hveq⟩ := List.mem_map.mp hm
                injection hveq with h1 h2
                exact hcid h1
    have hrest := ih (checkChannelA http d c).1
    refine ⟨?_, ?_⟩
    · calc lookupData (checkLoopA http d (c :: cs)).1 cid
          = lookupData (checkLoopA http (checkChannelA http d c).1 cs).1 cid := rfl
        _ = lookupData (checkChannelA http d c).1 cid := hrest.1
        _ = lookupData d cid := hstep.1
    · intro m hm
      have : Event.notify cid m ∈ (checkChannelA http d c).2
          ∨ Event.notify cid m ∈ (checkLoopA http (checkChannelA http d c).1 cs).2 := by
        simpa [checkLoopA] using hm
      rcases this with h1 | h2
      · exact hstep.2 m h1
      · exact hrest.2 m h2

/-- C6: if the feed fetch for channel id `cid` fails (producing an empty
item list, e.g. from an HTTP 500), a revision-A reconciliation pass leaves
the stored seen-set entry for `cid` unchanged and sends no notification
for `cid`. -/
theorem C6_failed_fetch_frame (http : String → FetchOutcome) (channels : List Channel)
    (d : SavedData) (cid : String) (hfetch : get_channel_videos http cid = []) :
    lookupData (check_new_videosA http channels d).1 cid = lookupData d cid
    ∧ ∀ m : String, Event.notify cid m ∉ (check_new_videosA http channels d).2 := by
  unfold check_new_videosA
  by_cases h : channels = []
  · simp [h]
  · rw [if_neg h]
    have hloop := checkLoopA_frame_empty_fetch http cid hfetch channels d
    refine ⟨hloop.1, ?_⟩
    intro m hm
    simp only [List.mem_append, List.mem_singleton] at hm
    rcases hm with h1 | h2
    · exact hloop.2 m h1
    · cases h2

/-- Witness for C6: the feed endpoint answers HTTP 500, the stored entry
survives the pass, and no notification for the channel is emitted. -/
theorem C6_failed_fetch_frame_witness :
    get_channel_videos (fun _ => .response 500 (.entries [exEntry "1"]))
        "UCabcdefghijklmnopqrstuv" = []
    ∧ (lookupData (check_new_videosA (fun _ => .response 500 (.entries [exEntry "1"]))
          [exChannel] [("UCabcdefghijklmnopqrstuv", ⟨["old1"], "ChanName"⟩)]).1
          "UCabcdefghijklmnopqrstuv"
        = lookupData [("UCabcdefghijklmnopqrstuv", ⟨["old1"], "ChanName"⟩)]
            "UCabcdefghijklmnopqrstuv"
      ∧ ∀ m : String, Event.notify "UCabcdefghijklmnopqrstuv" m
          ∉ (check_new_videosA (fun _ => .response 500 (.entries [exEntry "1"]))
              [exChannel] [("UCabcdefghijklmnopqrstuv", ⟨["old1"], "ChanName"⟩)]).2) :=
  ⟨by decide,
   C6_failed_fetch_frame (fun _ => .response 500 (.entries [exEntry "1"])) [exChannel]
     [("UCabcdefghijklmnopqrstuv", ⟨["old1"], "ChanName"⟩)]
     "UCabcdefghijklmnopqrstuv" (by decide)⟩

/-- `validate_channel_simple` (bot.py lines 64–85, 666–687).  The source
returns the tuple `(True, channel_name)` on a 200 response whose feed has
at least one entry (name = first entry's author, defaulting when absent),
and `(False, None)` otherwise; the tuple is encoded as `Option String`
(`some name` iff valid, which is exact because validity always carries a
name and invalidity never does). -/
def validate_channel_simple (http : String → FetchOutcome) (channel_id : String) :
    Option String :=
  match http (rssUrl channel_id) with
  | .transportError => none
  | .response status parsed =>
    if status == 200 then
      match parsed with
      | .failure => none
      | .entries [] => none
      | .entries (e0 :: _) => some (e0.author.getD "Canal do YouTube")
    else none

/-- The invalid-format reply of revision A's `/add` (bot.py lines 276–291). -/
def msgInvalidFormatA : String :=
  "❌ <b>Formato inválido!</b>\n\n🎯 <b>Use o Channel ID (formato UCxxxx)</b>\n\n📺 <b>Como encontrar o Channel ID:</b>\n\n<b>Método 1:</b> URL direta\nyoutube.com/channel/UCxxxx → copie UCxxxx\n\n<b>Método 2:</b> Via vídeo\n1. Abra qualquer vídeo do canal\n2. Clique no nome do canal\n3. Na URL, copie o UCxxxx\n\n<b>Exemplo:</b>\n/add UCU5JicSrEM5A63jkJ2QvGYw"

/-- The invalid-channel reply of revision A's `/add` (bot.py lines 300–310). -/
def msgInvalidChannelA (cid : String) : String :=
  "❌ <b>Channel ID inválido ou canal sem vídeos públicos</b>\n\n🆔 ID testado: <code>"
    ++ cid ++ "</code>\n\n✅ <b>Verifique se:</b>\n• O Channel ID está correto (formato UCxxxx)\n• O canal existe e tem vídeos públicos\n• Você copiou o ID completo\n\n💡 <b>Dica:</b> Teste primeiro acessar:\nyoutube.com/channel/" ++ cid

/-- The duplicate-channel warning (bot.py lines 319 and 906). -/
def msgDuplicate (name : String) : String :=
  "⚠️ Canal <b>" ++ name ++ "</b> já está sendo monitorado!"

/-- The success reply of revision A's `/add` (bot.py lines 352–359). -/
def msgAddSuccessA (name cid : String) (count : Nat) : String :=
  "✅ <b>Canal adicionado com sucesso!</b>\n\n📺 <b>Nome:</b> " ++ name
    ++ "\n🆔 <b>ID:</b> <code>" ++ cid ++ "</code>\n📹 <b>Vídeos atuais:</b> "
    ++ toString count
    ++ " (marcados como já vistos)\n\n🔔 <b>A partir de agora você receberá notificações APENAS dos novos vídeos!</b>\n⏱️ Verificação: a cada 1 minuto"

/-- Revision A's `cmd_add_channel` (bot.py lines 266–363): extract and
validate the id, reject duplicates, fetch the current videos and — when
the fetch returned items — store their ids as the channel's seen-set
before registering the channel (`save_data` at line 336).  The returned
triple is (registry, poll-state document, messages sent). -/
def cmd_add_channelA (http : String → FetchOutcome) (channel_input : String)
    (channels : List Channel) (data : SavedData) (now : String) :
    List Channel × SavedData × List String :=
  let m0 := ["🔍 Validando Channel ID..."]
  match extract_channel_id_simple channel_input with
  | none => (channels, data, m0 ++ [msgInvalidFormatA])
  | some channel_id =>
    match validate_channel_simple http channel_id with
    | none => (channels, data, m0 ++ [msgInvalidChannelA channel_id])
    | some channel_name =>
      if channels.any (fun c => c.channel_id == channel_id) then
        (channels, data, m0 ++ [msgDuplicate channel_name])
      else
        let m1 := m0 ++ ["🔄 Configurando monitoramento (marcando vídeos atuais como já vistos)..."]
        let current_videos := get_channel_videos http channel_id
        let data1 :=
          if current_videos = [] then data
          else setData data channel_id
            ⟨current_videos.map (fun v => v.video_id), channel_name⟩
        (channels ++ [⟨channel_name, channel_id, true, now⟩], data1,
         m1 ++ [msgAddSuccessA channel_name channel_id current_videos.length])

/-- Seen-set adequacy for channel id `cid` against the oracle: either the
feed currently yields no items, or any stored entry for `cid` records
exactly the current items' ids.  This is the state in which a revision-A
pass cannot notify anything for `cid`. -/
def SeedInv (http : String → FetchOutcome) (cid : String) (d : SavedData) : Prop :=
  get_channel_videos http cid = [] ∨
    ∀ e : ChannelData, lookupData d cid = some e →
      e.last_video_ids = (get_channel_videos http cid).map (fun v => v.video_id)

/-- One revision-A loop iteration preserves seen-set adequacy for `cid`
and emits no notification for `cid` when adequacy holds. -/
theorem checkChannelA_seedinv (http : String → FetchOutcome) (cid : String)
    (c : Channel) (d : SavedData) (hinv : SeedInv http cid d) :
    SeedInv http cid (checkChannelA http d c).1
    ∧ ∀ m : String, Event.notify cid m ∉ (checkChannelA http d c).2 := by
  by_cases hen : c.enabled = false
  · constructor
    · simpa [checkChannelA, hen] using hinv
    · simp [checkChannelA, hen]
  · by_cases hv : get_channel_videos http c.channel_id = []
    · constructor
      · simpa [checkChannelA, hen, hv] using hinv
      · simp [checkChannelA, hen, hv]
    · have hfst : (checkChannelA http d c).1
          = setData d c.channel_id
              ⟨(get_channel_videos http c.channel_id).map (fun v => v.video_id), c.name⟩ := by
        cases hl : lookupData d c.channel_id <;> simp [checkChannelA, hen, hv, hl]
      by_cases hcid : c.channel_id = cid
      · subst hcid
        rcases hinv with h0 | hseed
        · exact absurd h0 hv
        · have hinv1 : SeedInv http c.channel_id (checkChannelA http d c).1 := by
            right
            intro e he
            rw [hfst, lookupData_setData_self] at he
            injection he with h
            rw [← h]
          refine ⟨hinv1, ?_⟩
          intro m hm
          cases hl : lookupData d c.channel_id with
          | none =>
            have hres : (checkChannelA http d c).2 = [] := by
              simp [checkChannelA, hen, hv, hl]
            rw [hres] at hm
            cases hm
          | some entry =>
            have hev : (checkChannelA http d c).2
                = ((get_channel_videos http c.channel_id).filter
                    (fun v => ! entry.last_video_ids.contains v.video_id)).map
                    (fun v => Event.notify c.channel_id (format_video_message v c.name)) := by
              simp [checkChannelA, hen, hv, hl]
            have hfilter : (get_channel_videos http c.channel_id).filter
                (fun v => ! entry.last_video_ids.contains v.video_id) = [] :=
              filter_new_eq_nil _ _ (fun v hvmem => by
                rw [hseed entry hl]
                exact List.mem_map_of_mem _ hvmem)
            rw [hev, hfilter] at hm
            cases hm
      · constructor
        · rcases hinv with h0 | hseed
          · exact Or.inl h0
          · right
            intro e he
            rw [hfst, lookupData_setData_ne d c.channel_id cid _ (Ne.symm hcid)] at he
            exact hseed e he
        · intro m hm
          cases hl : lookupData d c.channel_id with
          | none =>
            have hres : (checkChannelA http d c).2 = [] := by
              simp [checkChannelA, hen, hv, hl]
            rw [hres] at hm
            cases hm
          | some entry =>
            have hres : (checkChannelA http d c).2
                = ((get_channel_videos http c.channel_id).filter
                    (fun v => ! entry.last_video_ids.contains v.video_id)).map
                    (fun v => Event.notify c.channel_id (format_video_message v c.name)) := by
              simp [checkChannelA, hen, hv, hl]
            rw [hres] at hm
            obtain ⟨v, _, hveq⟩ := List.mem_map.mp hm
            injection hveq with hq1 hq2
            exact hcid hq1

/-- A revision-A channel loop started in a `cid`-adequate state emits no
notification for `cid`. -/
theorem checkLoopA_no_notify (http : String → FetchOutcome) (cid : String) :
    ∀ (cs : List Channel) (d : SavedData), SeedInv http cid d →
      ∀ m : String, Event.notify cid m ∉ (checkLoopA http d cs).2 := by
  intro cs
  induction cs with
  | nil =>
    intro d _ m hm
    simp [checkLoopA] at hm
  | cons c cs ih =>
    intro d hinv m hm
    obtain ⟨hinv1, hev⟩ := checkChannelA_seedinv http cid c d hinv
    have hsplit : Event.notify cid m ∈ (checkChannelA http d c).2
        ∨ Event.notify cid m ∈ (checkLoopA http (checkChannelA http d c).1 cs).2 := by
      simpa [checkLoopA] using hm
    rcases hsplit with h1 | h2
    · exact hev m h1
    · exact ih (checkChannelA http d c).1 hinv1 m h2

/-- C2 (amended): through revision A's `/add` flow — the one that seeds the
seen-set — a successfully added channel has its current feed ids stored
(whenever the add-time fetch returned items), and a revision-A
reconciliation pass over the post-add registry with the unchanged feed
sends no notification for that channel. -/
theorem C2_amended_addA_seeds (http : String → FetchOutcome) (channel_input : String)
    (channels : List Channel) (data : SavedData) (now cid name : String)
    (h1 : extract_channel_id_simple channel_input = some cid)
    (h2 : validate_channel_simple http cid = some name)
    (h3 : channels.any (fun c => c.channel_id == cid) = false) :
    (get_channel_videos http cid ≠ [] →
      lookupData (cmd_add_channelA http channel_input channels data now).2.1 cid
        = some ⟨(get_channel_videos http cid).map (fun v => v.video_id), name⟩)
    ∧ ∀ m : String, Event.notify cid m ∉
        (check_new_videosA http (cmd_add_channelA http channel_input channels data now).1
          (cmd_add_channelA http channel_input channels data now).2.1).2 := by
  have hchan : (cmd_add_channelA http channel_input channels data now).1
      = channels ++ [⟨name, cid, true, now⟩] := by
    simp [cmd_add_channelA, h1, h2, h3]
  have hdata : (cmd_add_channelA http channel_input channels data now).2.1
      = if get_channel_videos http cid = [] then data
        else setData data cid ⟨(get_channel_videos http cid).map (fun v => v.video_id), name⟩ := by
    simp [cmd_add_channelA, h1, h2, h3]
  constructor
  · intro hne
    rw [hdata, if_neg hne, lookupData_setData_self]
  · intro m hm
    have hinv : SeedInv http cid (cmd_add_channelA http channel_input channels data now).2.1 := by
      by_cases hne : get_channel_videos http cid = []
      · exact Or.inl hne
      · right
        intro e he
        rw [hdata, if_neg hne, lookupData_setData_self] at he
        injection he with h
        rw [← h]
    have hne' : (cmd_add_channelA http channel_input channels data now).1 ≠ [] := by
      rw [hchan]
      simp
    rw [check_new_videosA, if_neg hne'] at hm
    simp only [List.mem_append, List.mem_singleton] at hm
    rcases hm with hm1 | hm2
    · exact checkLoopA_no_notify http cid _ _ hinv m hm1
    · cases hm2

/-- Python `str.lower()` (ASCII case mapping, as used on URLs here). -/
def pyLower (s : String) : String := s.toLower

/-- Substring test over character lists (Python `in` on strings). -/
def hasSubList (pat : List Char) : List Char → Bool
  | [] => pat == []
  | cs@(_ :: tl) => cs.take pat.length == pat || hasSubList pat tl

/-- Python `sub in s`. -/
def containsSub (s sub : String) : Bool := hasSubList sub.toList s.toList

/-- One character of the class `[^/?&\s]` of the rescue URL patterns
(bot.py lines 875–879); the ASCII part of `\s`. -/
def isHandleChar (c : Char) : Bool :=
  ! (c == '/' || c == '?' || c == '&' || isPyWhitespace c)

/-- Match, at the head of `cs`, the literal `pre` followed by the group
`([^/?&\s]+)` (greedy, at least one character). -/
def capClassAt (pre : List Char) (cs : List Char) : Option String :=
  if cs.take pre.length == pre then
    let run := (cs.drop pre.length).takeWhile isHandleChar
    if run == [] then none else some (String.mk run)
  else none

/-- `re.search(pre + r'([^/?&\s]+)', s)` for a literal `pre`, returning the
captured group of the first matching position. -/
def captureAfter (pre : String) (s : String) : Option String :=
  scanFor (capClassAt pre.toList) s.toList

/-- The success reply of revision B's `/add` (bot.py line 920). -/
def msgAddSuccessB (name cid : String) : String :=
  "✅ <b>Canal adicionado com sucesso!</b>\n\n📺 <b>Nome:</b> " ++ name
    ++ "\n🆔 <b>ID:</b> <code>" ++ cid
    ++ "</code>\n\nAgora você receberá notificações dos novos vídeos! 🎉"

/-- The not-found debug reply of revision B's `/add` (bot.py line 897). -/
def msgDebugFailB (channel_input cid : String) : String :=
  "❌ Canal não encontrado.\n\n📝 <b>Informações para debug:</b>\nURL original: "
    ++ channel_input ++ "\nID testado: <code>" ++ cid
    ++ "</code>\n\n💡 <b>Dicas:</b>\n• Tente usar o formato @usuario\n• Ou copie a URL completa do canal\n• Verifique se o canal existe e tem vídeos públicos"

/-- The duplicate check and registry append shared by both outcomes of
revision B's `/add` (bot.py lines 900–920): note that the poll-state
document `data` is returned untouched — revision B seeds nothing. -/
def finishAddB (channels : List Channel) (data : SavedData) (now cid name : String)
    (msgs : List String) : List Channel × SavedData × List String :=
  if channels.any (fun c => c.channel_id == cid) then
    (channels, data, msgs ++ [msgDuplicate name])
  else
    (channels ++ [⟨name, cid, true, now⟩], data, msgs ++ [msgAddSuccessB name cid])

/-- One pattern of the rescue loop (bot.py lines 881–893): a captured
handle is pushed through `handle_to_channel_id`; the attempt succeeds only
if that returned something different from the handle and the result
validates. -/
def rescueTry (http : String → FetchOutcome) (page : String → PageOutcome) :
    Option String → Option (String × String)
  | none => none
  | some handle =>
    let alternative_id := handle_to_channel_id http page handle
    if alternative_id == handle then none
    else
      match validate_channel_simple http alternative_id with
      | some nm => some (alternative_id, nm)
      | none => none

/-- The three rescue URL patterns applied to the original input (bot.py
lines 875–879). -/
def rescueHandles (channel_input : String) : List (Option String) :=
  [captureAfter "youtube.com/c/" channel_input,
   captureAfter "youtube.com/@" channel_input,
   captureAfter "youtube.com/user/" channel_input]

/-- The alternative-methods block of revision B's `/add` (bot.py lines
868–898): entered only when the lowered input contains the site host; the
first fully successful pattern wins (a failed validation keeps looping,
exactly as the `break`-on-valid loop does). -/
def rescueResolve (http : String → FetchOutcome) (page : String → PageOutcome)
    (channel_input : String) : Option (String × String) :=
  if containsSub (pyLower channel_input) "youtube.com" then
    firstSomeP ((rescueHandles channel_input).map (rescueTry http page))
  else none

/-- Revision B's `cmd_add_channel` (bot.py lines 847–924): extract,
validate (with the alternative-methods rescue on failure), reject
duplicates and append the registration.  No write to the poll-state
document occurs anywhere in this flow. -/
def cmd_add_channelB (http : String → FetchOutcome) (page : String → PageOutcome)
    (channel_input : String) (channels : List Channel) (data : SavedData) (now : String) :
    List Channel × SavedData × List String :=
  let m0 := ["🔍 Processando canal... Isso pode levar até 30 segundos."]
  match extract_channel_id_simple channel_input with
  | none => (channels, data, m0 ++ ["❌ Não consegui extrair o ID do canal. Verifique a URL."])
  | some channel_id =>
    let m1 := m0 ++ ["🔄 Tentando validar canal com ID: <code>" ++ channel_id ++ "</code>"]
    match validate_channel_simple http channel_id with
    | some channel_name => finishAddB channels data now channel_id channel_name m1
    | none =>
      let m2 := m1 ++ ["🔄 Primeira tentativa falhou, testando métodos alternativos..."]
      match rescueResolve http page channel_input with
      | some r => finishAddB channels data now r.1 r.2 m2
      | none => (channels, data, m2 ++ [msgDebugFailB channel_input channel_id])

/-- The canonical channel id used in the concrete C2 scenario. -/
def exCid : String := "UCabcdefghijklmnopqrstuv"

/-- Oracle for the C2 scenario: the channel's feed constantly carries the
same five entries; every other URL errors out. -/
def exHttp : String → FetchOutcome := fun u =>
  if u = rssUrl exCid then
    .response 200 (.entries [exEntry "1", exEntry "2", exEntry "3", exEntry "4", exEntry "5"])
  else .transportError

/-- Page oracle for the C2 scenario: scraping always fails. -/
def exPage : String → PageOutcome := fun _ => .transportError

/-- C2 counterexample: starting from an empty registry and empty
poll-state, a successful `/add` of a channel with five feed items through
revision B's flow (bot.py lines 847–924) stores no seen-set entry for the
channel, and the immediately following revision-B reconciliation pass with
the unchanged feed notifies all five pre-existing items instead of zero. -/
theorem C2_counterexample_addB_unseeded :
    lookupData (cmd_add_channelB exHttp exPage exCid [] [] "2024-01-01").2.1 exCid = none
    ∧ (cmd_add_channelB exHttp exPage exCid [] [] "2024-01-01").1
        = [⟨"ChanName", exCid, true, "2024-01-01"⟩]
    ∧ ((check_new_videosB exHttp
          (cmd_add_channelB exHttp exPage exCid [] [] "2024-01-01").1
          (cmd_add_channelB exHttp exPage exCid [] [] "2024-01-01").2.1).2.filter
            isNotifyEvent).length = 5 :=
  ⟨rfl, rfl, rfl⟩

/-- Witness for the amended C2: the same scenario run through revision A's
seeding `/add` flow stores all five ids and yields no notification in the
first pass. -/
theorem C2_amended_addA_seeds_witness :
    (extract_channel_id_simple exCid = some exCid)
    ∧ (validate_channel_simple exHttp exCid = some "ChanName")
    ∧ (([] : List Channel).any (fun c => c.channel_id == exCid) = false)
    ∧ ((get_channel_videos exHttp exCid ≠ [] →
          lookupData (cmd_add_channelA exHttp exCid [] [] "2024-01-01").2.1 exCid
            = some ⟨(get_channel_videos exHttp exCid).map (fun v => v.video_id), "ChanName"⟩)
        ∧ ∀ m : String, Event.notify exCid m ∉
            (check_new_videosA exHttp (cmd_add_channelA exHttp exCid [] [] "2024-01-01").1
              (cmd_add_channelA exHttp exCid [] [] "2024-01-01").2.1).2) :=
  ⟨by decide, by decide, rfl,
   C2_amended_addA_seeds exHttp exCid [] [] "2024-01-01" exCid "ChanName"
     (by decide) (by decide) rfl⟩

/-- An inbound Telegram message as read by bot.py: `text` is `none` when
the `'text'` key is absent (`message.get('text', '')` then yields `''`),
and `chat_id` is the stringified originating chat id. -/
structure Msg where
  text : Option String
  chat_id : String
deriving DecidableEq

/-- One update returned by `getUpdates`: its monotone sequence number and
the optional `'message'` payload. -/
structure Update where
  update_id : Nat
  message : Option Msg
deriving DecidableEq

/-- The `offset` parameter sent by `get_telegram_updates` (bot.py line
142): one past the process-local watermark, so every consumed update is
excluded from the next request. -/
def getUpdatesOffset (last_update_id : Nat) : Nat := last_update_id + 1

/-- An update carrying a message whose chat id differs from the configured
recipient chat id (the silently ignored case, bot.py lines 172–175). -/
def foreignUpdate (cfg : String) (u : Update) : Bool :=
  match u.message with
  | none => false
  | some m => m.chat_id != cfg

/-- `process_telegram_commands` (bot.py lines 157–184, identically
759–786), given the batch of updates returned by the transport.  For each
update, the watermark is set to its sequence number first; then updates
without a message, updates from a chat other than `cfg`, and texts not
starting with `/` are dropped; command texts go to `handle_command`.
`handle_command` (with every `cmd_*` behind it) is a parameter `handle`
over an abstract persisted-state type `σ`: it maps state and command text
to (new state, messages sent), and the source never touches the watermark
inside it.  Result: (final watermark, final state, messages sent in
order). -/
def process_telegram_commands {σ : Type} (cfg : String)
    (handle : σ → String → σ × List String) :
    Nat → σ → List Update → Nat × σ × List String
  | last, st, [] => (last, st, [])
  | _, st, u :: rest =>
    match u.message with
    | none => process_telegram_commands cfg handle u.update_id st rest
    | some m =>
      let text := pyStrip (m.text.getD "")
      if m.chat_id != cfg then
        process_telegram_commands cfg handle u.update_id st rest
      else if text.startsWith "/" then
        let p := handle st text
        let r := process_telegram_commands cfg handle u.update_id p.1 rest
        (r.1, r.2.1, p.2 ++ r.2.2)
      else
        process_telegram_commands cfg handle u.update_id st rest

/-- The watermark accumulator influences only the returned watermark,
never the state or the outputs. -/
theorem process_last_irrelevant {σ : Type} (cfg : String)
    (handle : σ → String → σ × List String) :
    ∀ (us : List Update) (l1 l2 : Nat) (st : σ),
      (process_telegram_commands cfg handle l1 st us).2
        = (process_telegram_commands cfg handle l2 st us).2 := by
  intro us
  cases us with
  | nil => intro l1 l2 st; rfl
  | cons u rest =>
    intro l1 l2 st
    cases hm : u.message with
    | none => simp [process_telegram_commands, hm]
    | some m =>
      by_cases hc : m.chat_id != cfg
      · simp [process_telegram_commands, hm, hc]
      · by_cases hs : (pyStrip (m.text.getD "")).startsWith "/"
        · simp [process_telegram_commands, hm, hc, hs]
        · simp [process_telegram_commands, hm, hc, hs]

/-- Dropping the foreign-chat updates from a batch changes neither the
final state nor the outputs. -/
theorem process_filter_foreign {σ : Type} (cfg : String)
    (handle : σ → String → σ × List String) :
    ∀ (us : List Update) (last : Nat) (st : σ),
      (process_telegram_commands cfg handle last st us).2
        = (process_telegram_commands cfg handle last st
            (us.filter (fun u => ! foreignUpdate cfg u))).2 := by
  intro us
  induction us with
    | nil => intro last st; rfl
    | cons u rest ih =>
      intro last st
      by_cases hf : foreignUpdate cfg u = true
      · obtain ⟨m, hm, hc⟩ : ∃ m, u.message = some m ∧ (m.chat_id != cfg) = true := by
          unfold foreignUpdate at hf
          cases hmm : u.message with
          | none => rw [hmm] at hf; cases hf
          | some m => exact ⟨m, rfl, by rw [hmm] at hf; exact hf⟩
        have hdrop : (u :: rest).filter (fun u => ! foreignUpdate cfg u)
            = rest.filter (fun u => ! foreignUpdate cfg u) := by
          simp [List.filter_cons, hf]
        rw [hdrop]
        calc (process_telegram_commands cfg handle last st (u :: rest)).2
            = (process_telegram_commands cfg handle u.update_id st rest).2 := by
              simp [process_telegram_commands, hm, hc]
          _ = (process_telegram_commands cfg handle u.update_id st
                (rest.filter (fun u => ! foreignUpdate cfg u))).2 := ih u.update_id st
          _ = (process_telegram_commands cfg handle last st
                (rest.filter (fun u => ! foreignUpdate cfg u))).2 :=
              process_last_irrelevant cfg handle _ _ _ st
      · have hkeep : (u :: rest).filter (fun u => ! foreignUpdate cfg u)
            = u :: rest.filter (fun u => ! foreignUpdate cfg u) := by
          simp [List.filter_cons, hf]
        rw [hkeep]
        cases hm : u.message with
        | none =>
          calc (process_telegram_commands cfg handle last st (u :: rest)).2
              = (process_telegram_commands cfg handle u.update_id st rest).2 := by
                simp [process_telegram_commands, hm]
            _ = (process_telegram_commands cfg handle u.update_id st
                  (rest.filter (fun u => ! foreignUpdate cfg u))).2 := ih u.update_id st
            _ = (process_telegram_commands cfg handle last st
                  (u :: rest.filter (fun u => ! foreignUpdate cfg u))).2 := by
                simp [process_telegram_commands, hm]
        | some m =>
          have hc : (m.chat_id != cfg) = false := by
            unfold foreignUpdate at hf
            rw [hm] at hf
            simpa using hf
          by_cases hs : (pyStrip (m.text.getD "")).startsWith "/"
          · have h1 : (process_telegram_commands cfg handle last st (u :: rest)).2
                = ((process_telegram_commands cfg handle u.update_id
                      (handle st (pyStrip (m.text.getD ""))).1 rest).2.1,
                   (handle st (pyStrip (m.text.getD ""))).2
                     ++ (process_telegram_commands cfg handle u.update_id
                          (handle st (pyStrip (m.text.getD ""))).1 rest).2.2) := by
              simp [process_telegram_commands, hm, hc, hs]
            have h2 : (process_telegram_commands cfg handle last st
                  (u :: rest.filter (fun u => ! foreignUpdate cfg u))).2
                = ((process_telegram_commands cfg handle u.update_id
                      (handle st (pyStrip (m.text.getD ""))).1
                      (rest.filter (fun u => ! foreignUpdate cfg u))).2.1,
                   (handle st (pyStrip (m.text.getD ""))).2
                     ++ (process_telegram_commands cfg handle u.update_id
                          (handle st (pyStrip (m.text.getD ""))).1
                          (rest.filter (fun u => ! foreignUpdate cfg u))).2.2) := by
              simp [process_telegram_commands, hm, hc, hs]
            have he := ih u.update_id (handle st (pyStrip (m.text.getD ""))).1
            rw [h1, h2, he]
          · calc (process_telegram_commands cfg handle last st (u :: rest)).2
                = (process_telegram_commands cfg handle u.update_id st rest).2 := by
                  simp [process_telegram_commands, hm, hc, hs]
              _ = (process_telegram_commands cfg handle u.update_id st
                    (rest.filter (fun u => ! foreignUpdate cfg u))).2 := ih u.update_id st
              _ = (process_telegram_commands cfg handle last st
                    (u :: rest.filter (fun u => ! foreignUpdate cfg u))).2 := by
                  simp [process_telegram_commands, hm, hc, hs]

/-- C9: foreign-chat updates are inert.  (1) A run over any update batch
produces the same final persisted state and the same outbound messages as
the run over the batch with all foreign-chat updates removed — two runs
differing only in foreign-chat updates are indistinguishable in state and
user-visible output.  (2) Processing a single foreign-chat update performs
no command handling: it returns the state unchanged and sends nothing. -/
theorem C9_foreign_chat_ignored {σ : Type} (cfg : String)
    (handle : σ → String → σ × List String) (last : Nat) (st : σ) (us : List Update) :
    (process_telegram_commands cfg handle last st us).2
      = (process_telegram_commands cfg handle last st
          (us.filter (fun u => ! foreignUpdate cfg u))).2
    ∧ ∀ u : Update, foreignUpdate cfg u = true →
        (process_telegram_commands cfg handle last st [u]).2 = (st, []) := by
  constructor
  · exact process_filter_foreign cfg handle us last st
  · intro u hf
    obtain ⟨m, hm, hc⟩ : ∃ m, u.message = some m ∧ (m.chat_id != cfg) = true := by
      unfold foreignUpdate at hf
      cases hmm : u.message with
      | none => rw [hmm] at hf; cases hf
      | some m => exact ⟨m, rfl, by rw [hmm] at hf; exact hf⟩
    simp [process_telegram_commands, hm, hc]

/-- A trivial command handler over a `Bool` state, for concrete runs. -/
def exHandle : Bool → String → Bool × List String := fun s _ => (s, [])

/-- A concrete foreign-chat update (configured recipient is "100"). -/
def exForeign : Update :=
  { update_id := 7, message := some { text := some "/list", chat_id := "200" } }

/-- Witness for C9: one foreign-chat update leaves the state untouched and
sends nothing. -/
theorem C9_foreign_chat_ignored_witness :
    foreignUpdate "100" exForeign = true
    ∧ (process_telegram_commands "100" exHandle 0 true [exForeign]).2
        = (true, ([] : List String)) :=
  ⟨by decide,
   (C9_foreign_chat_ignored "100" exHandle 0 true [exForeign]).2 exForeign (by decide)⟩

/-- The final watermark of a drain phase is the sequence number of the
last update in the batch (or the old watermark for an empty batch),
regardless of message presence, chat id, or command shape: the watermark
is advanced before any filtering. -/
theorem process_fst_watermark {σ : Type} (cfg : String)
    (handle : σ → String → σ × List String) :
    ∀ (us : List Update) (last : Nat) (st : σ),
      (process_telegram_commands cfg handle last st us).1
        = (us.map (fun u => u.update_id)).getLastD last := by
  intro us
  induction us with
  | nil => intro last st; rfl
  | cons u rest ih =>
    intro last st
    have htail : ((u :: rest).map (fun u => u.update_id)).getLastD last
        = (rest.map (fun u => u.update_id)).getLastD u.update_id := by
      rw [List.map_cons, List.getLastD_cons]
    rw [htail]
    cases hm : u.message with
    | none =>
      calc (process_telegram_commands cfg handle last st (u :: rest)).1
          = (process_telegram_commands cfg handle u.update_id st rest).1 := by
            simp [process_telegram_commands, hm]
        _ = (rest.map (fun u => u.update_id)).getLastD u.update_id := ih u.update_id st
    | some m =>
      by_cases hc : m.chat_id != cfg
      · calc (process_telegram_commands cfg handle last st (u :: rest)).1
            = (process_telegram_commands cfg handle u.update_id st rest).1 := by
              simp [process_telegram_commands, hm, hc]
          _ = (rest.map (fun u => u.update_id)).getLastD u.update_id := ih u.update_id st
      · by_cases hs : (pyStrip (m.text.getD "")).startsWith "/"
        · calc (process_telegram_commands cfg handle last st (u :: rest)).1
              = (process_telegram_commands cfg handle u.update_id
                  (handle st (pyStrip (m.text.getD ""))).1 rest).1 := by
                simp [process_telegram_commands, hm, hc, hs]
            _ = (rest.map (fun u => u.update_id)).getLastD u.update_id :=
              ih u.update_id (handle st (pyStrip (m.text.getD ""))).1
        · calc (process_telegram_commands cfg handle last st (u :: rest)).1
              = (process_telegram_commands cfg handle u.update_id st rest).1 := by
                simp [process_telegram_commands, hm, hc, hs]
            _ = (rest.map (fun u => u.update_id)).getLastD u.update_id := ih u.update_id st

/-- C10: the process-local watermark ends at the last returned update's
sequence number — foreign-chat, message-less and non-command updates
included, since the assignment precedes all filtering — so the next
`getUpdates` request uses offset (that id + 1), and (for the monotone
batches the transport delivers) every update of the batch falls below the
next offset: consumed once, never re-requested in the same run. -/
theorem C10_watermark_consumes_all {σ : Type} (cfg : String)
    (handle : σ → String → σ × List String) (last : Nat) (st : σ) (us : List Update) :
    (process_telegram_commands cfg handle last st us).1
        = (us.map (fun u => u.update_id)).getLastD last
    ∧ getUpdatesOffset (process_telegram_commands cfg handle last st us).1
        = (us.map (fun u => u.update_id)).getLastD last + 1
    ∧ ((∀ u ∈ us, u.update_id ≤ (us.map (fun u => u.update_id)).getLastD last) →
        ∀ u ∈ us, u.update_id
          < getUpdatesOffset (process_telegram_commands cfg handle last st us).1) := by
  have h1 := process_fst_watermark (σ := σ) cfg handle us last st
  refine ⟨h1, by rw [getUpdatesOffset, h1], ?_⟩
  intro hmono u hu
  rw [getUpdatesOffset, h1]
  exact Nat.lt_succ_of_le (hmono u hu)

/-- A concrete batch: a foreign-chat command update then a message-less
update. -/
def exUpdates : List Update :=
  [{ update_id := 7, message := some { text := some "/list", chat_id := "200" } },
   { update_id := 9, message := none }]

/-- Witness for C10 on the concrete batch: both updates end up below the
next request offset even though neither reached command handling. -/
theorem C10_watermark_consumes_all_witness :
    (∀ u ∈ exUpdates, u.update_id ≤ (exUpdates.map (fun u => u.update_id)).getLastD 0)
    ∧ ∀ u ∈ exUpdates, u.update_id
        < getUpdatesOffset (process_telegram_commands "100" exHandle 0 true exUpdates).1 :=
  ⟨by decide,
   (C10_watermark_consumes_all "100" exHandle 0 true exUpdates).2.2 (by decide)⟩
